import Mathlib

/-!
Verification of the navigation control subsystem of the Autonomous-Benchmarking
repository against its natural-language specification.

The Python sources are shallowly embedded as executable Lean definitions:

* Ruthwika      : src/ruthwika/primitives.py and src/ruthwika/navigation_agent.py
* FinalPrims    : src/Final/final_primitives.py
* PicarxPrims   : src/picarx_primitives.py
* SimpleMaze    : src/Final/simple_maze_agent.py
* MazeNav       : src/Final/maze_navigation_agent.py

Distances, angles, speeds and durations are embedded as rationals (Python floats
are used only for exact decimal arithmetic in the modelled code paths).
Hardware calls are modelled as an explicit event trace (HwEvent); a hardware
call that raises an exception is modelled by an explicit fault parameter, and
the Python functions that swallow exceptions and return an error string are
embedded as total functions returning a dedicated error constructor.
Vision-collaborator responses reach the control loops only through the
dictionaries produced by the parsing helpers, so each loop is parameterised by
a deterministic trace of already-parsed responses (an adversarial environment).
-/

/-- A hardware command issued through the actuator interface, in order. -/
inductive HwEvent
  | forwardCmd (speed : ℚ)
  | backwardCmd (speed : ℚ)
  | stopCmd
  | setDir (angle : ℚ)
  | motor (id : ℕ) (speed : ℚ)
  | sleep (dur : ℚ)
  | resetCmd
deriving DecidableEq

namespace Ruthwika

/-- clamp_value from src/ruthwika/primitives.py line 38: max(min_val, min(max_val, value)). -/
def clamp_value (value lo hi : ℚ) : ℚ := max lo (min hi value)

/-- The module-level _servo_angles dictionary of src/ruthwika/primitives.py. -/
structure ServoAngles where
  dir_servo : ℚ
  cam_pan : ℚ
  cam_tilt : ℚ
deriving DecidableEq

/-- set_dir_servo_angle, lines 325-337: clamps to [-30, 30] and stores the
clamped value (success path of the hardware call). -/
def set_dir_servo_angle (s : ServoAngles) (angle : ℚ) : ServoAngles :=
  { s with dir_servo := clamp_value angle (-30) 30 }

/-- set_cam_pan_angle, lines 340-352: clamps to [-35, 35]. -/
def set_cam_pan_angle (s : ServoAngles) (angle : ℚ) : ServoAngles :=
  { s with cam_pan := clamp_value angle (-35) 35 }

/-- set_cam_tilt_angle, lines 355-367: clamps to [-35, 35]. -/
def set_cam_tilt_angle (s : ServoAngles) (angle : ℚ) : ServoAngles :=
  { s with cam_tilt := clamp_value angle (-35) 35 }

/-- Which hardware call inside move_forward raises, if any.
onForward: the initial px.forward call raises.
late: a call after px.forward (sleep, obstacle read, or the final px.stop)
raises, in the timed branch. -/
inductive MoveFault
  | nofault
  | onForward
  | late
deriving DecidableEq

/-- The string outcomes of move_forward (src/ruthwika/primitives.py lines
74-111), one constructor per return statement. failed is the
"Move forward failed: ..." string produced by the except-handler: the
exception is swallowed and the function returns normally. -/
inductive MoveResult
  | continuous (speed : ℤ)
  | timed (speed : ℤ) (dur : ℚ)
  | stoppedEarly (distAt : ℚ)
  | failed
deriving DecidableEq

/-- move_forward, lines 74-111. speed is clamped to [0,100]; duration = none is
the continuous branch; check true with obstacle = some d models the polling
loop detecting an obstacle at distance d; the fault parameter injects a
hardware exception. Returns the result and the trace of hardware commands that
were successfully issued. Note that the except-handler issues no stop command. -/
def move_forward (speed : ℤ) (duration : Option ℚ) (check : Bool)
    (fault : MoveFault) (obstacle : Option ℚ) : MoveResult × List HwEvent :=
  let sp : ℤ := max 0 (min 100 speed)
  if fault = MoveFault.onForward then
    (MoveResult.failed, [])
  else
    match duration with
    | none => (MoveResult.continuous sp, [HwEvent.forwardCmd (sp : ℚ)])
    | some d =>
      if fault = MoveFault.late then
        (MoveResult.failed, [HwEvent.forwardCmd (sp : ℚ)])
      else
        match check, obstacle with
        | true, some dist =>
          (MoveResult.stoppedEarly dist, [HwEvent.forwardCmd (sp : ℚ), HwEvent.stopCmd])
        | _, _ =>
          (MoveResult.timed sp d,
            [HwEvent.forwardCmd (sp : ℚ), HwEvent.sleep d, HwEvent.stopCmd])

end Ruthwika

namespace FinalPrims

/-- The module-level _servo_angles dictionary of src/Final/final_primitives.py. -/
structure ServoAngles where
  dir_servo : ℚ
  cam_pan : ℚ
  cam_tilt : ℚ
deriving DecidableEq

/-- set_dir_servo, lines 124-132: two explicit if-statements clamp the angle to
[-30, 30] before storing it. -/
def set_dir_servo (s : ServoAngles) (angle : ℚ) : ServoAngles :=
  let a1 := if angle > 30 then 30 else angle
  let a2 := if a1 < -30 then -30 else a1
  { s with dir_servo := a2 }

/-- set_cam_pan_servo, lines 134-139: stores the input angle with no clamping. -/
def set_cam_pan_servo (s : ServoAngles) (angle : ℚ) : ServoAngles :=
  { s with cam_pan := angle }

/-- set_cam_tilt_servo, lines 141-146: stores the input angle with no clamping. -/
def set_cam_tilt_servo (s : ServoAngles) (angle : ℚ) : ServoAngles :=
  { s with cam_tilt := angle }

end FinalPrims

namespace PicarxPrims

/-- The observable behaviour of one call to rotate_in_place
(src/picarx_primitives.py lines 201-237): the ordered hardware commands, the
derived sleep duration, and the boolean return value. -/
structure RotateRun where
  events : List HwEvent
  duration : ℚ
  result : Bool
deriving DecidableEq

/-- rotate_in_place, lines 201-237, success path. Positive degrees: steering to
+30, motor 1 at +speed, motor 2 at -speed; otherwise steering to -30 with the
motor signs flipped. The sleep duration is abs(degrees)/90.0 * 1.0 *
(30.0/speed). Afterwards stop and steering back to 0; returns True. -/
def rotate_in_place (degrees speed : ℚ) : RotateRun :=
  let dur := |degrees| / 90 * 1 * (30 / speed)
  if 0 < degrees then
    ⟨[HwEvent.setDir 30, HwEvent.motor 1 speed, HwEvent.motor 2 (-speed),
      HwEvent.sleep dur, HwEvent.stopCmd, HwEvent.setDir 0], dur, true⟩
  else
    ⟨[HwEvent.setDir (-30), HwEvent.motor 1 (-speed), HwEvent.motor 2 speed,
      HwEvent.sleep dur, HwEvent.stopCmd, HwEvent.setDir 0], dur, true⟩

/-- rotate_in_place when the time.sleep call raises (lines 232-237): the
except-handler prints, issues px.stop() and px.set_dir_servo_angle(0)
defensively, and returns False instead of re-raising. -/
def rotate_in_place_faulted (degrees speed : ℚ) : RotateRun :=
  let dur := |degrees| / 90 * 1 * (30 / speed)
  if 0 < degrees then
    ⟨[HwEvent.setDir 30, HwEvent.motor 1 speed, HwEvent.motor 2 (-speed),
      HwEvent.stopCmd, HwEvent.setDir 0], dur, false⟩
  else
    ⟨[HwEvent.setDir (-30), HwEvent.motor 1 (-speed), HwEvent.motor 2 speed,
      HwEvent.stopCmd, HwEvent.setDir 0], dur, false⟩

end PicarxPrims

namespace Ruthwika

/-- Which sensor produced the distance actually used in an approach cycle
(the distance_source string of approach_object_slowly). The code calls the
rangefinder source "ultrasonic". -/
inductive Source
  | ultrasonic
  | vision
  | fallback
deriving DecidableEq

/-- parse_ultrasonic_distance, src/ruthwika/navigation_agent.py lines 691-701,
applied to the number extracted by the regex from the sensor string (none when
the regex does not match or an exception occurred): the value is returned only
when it lies in [2, 400], otherwise None. -/
def parse_ultrasonic_distance (extracted : Option ℚ) : Option ℚ :=
  match extracted with
  | some d => if 2 ≤ d ∧ d ≤ 400 then some d else none
  | none => none

/-- The distance-fusion branch of approach_object_slowly, lines 576-584:
if the ultrasonic value is present and in [2,400] use it (source ultrasonic),
elif the vision value is present and in [2,500] use it (source vision),
else the fixed fallback 10.0 cm (source fallback). -/
def fuse (ultrasonic_distance vision_distance : Option ℚ) : ℚ × Source :=
  match ultrasonic_distance with
  | some u =>
    if 2 ≤ u ∧ u ≤ 400 then (u, Source.ultrasonic)
    else
      match vision_distance with
      | some v => if 2 ≤ v ∧ v ≤ 500 then (v, Source.vision) else (10, Source.fallback)
      | none => (10, Source.fallback)
  | none =>
    match vision_distance with
    | some v => if 2 ≤ v ∧ v ≤ 500 then (v, Source.vision) else (10, Source.fallback)
    | none => (10, Source.fallback)

/-- step_size = max(1.0, min(8.0, remaining_distance * 0.3)), line 594. -/
def stepSize (remaining : ℚ) : ℚ := max 1 (min 8 (remaining * (3/10)))

/-- step_duration = max(0.1, min(step_size / 20.0, 1.0)), lines 602-603. -/
def stepDuration (sz : ℚ) : ℚ := max (1/10) (min (sz / 20) 1)

/-- The per-cycle environment of approach_object_slowly: whether the image-path
regex matched, the number extracted by the ultrasonic regex (before the
[2,400] validity filter), and the result of get_vision_distance (already None
when the vision reply had no usable number). -/
structure ApproachObs where
  pathOk : Bool
  ultraRaw : Option ℚ
  visionD : Option ℚ

/-- Outcome of one iteration of the approach loop, lines 554-609, one
constructor per exit of the loop body. veryClose is the
"step_size < 1.0, very close to target" early return of lines 598-600;
move records an issued move_forward(30, step_duration) command. -/
inductive ApproachCycleRes
  | errorPath
  | reached (d : ℚ) (src : Source)
  | veryClose (d : ℚ)
  | move (sz dur d : ℚ) (src : Source)
deriving DecidableEq

/-- One iteration of the approach loop body (lines 554-609). -/
def approachCycle (stop_distance : ℚ) (obs : ApproachObs) : ApproachCycleRes :=
  if obs.pathOk = false then ApproachCycleRes.errorPath
  else
    let ds := fuse (parse_ultrasonic_distance obs.ultraRaw) obs.visionD
    if ds.1 ≤ stop_distance then ApproachCycleRes.reached ds.1 ds.2
    else
      let remaining := ds.1 - stop_distance
      let sz := stepSize remaining
      if sz < 1 then ApproachCycleRes.veryClose ds.1
      else ApproachCycleRes.move sz (stepDuration sz) ds.1 ds.2

/-- True exactly on the veryClose constructor (the step_size < 1.0 early
return of lines 598-600). -/
def isVeryClose : ApproachCycleRes → Bool
  | ApproachCycleRes.veryClose _ => true
  | _ => false

/-- Result of approach_object_slowly, one constructor per return statement of
lines 545-611 (incomplete is the max_steps safety-limit return). -/
inductive ApproachResult
  | errorPath
  | success (d : ℚ) (src : Source)
  | successClose (d : ℚ)
  | incomplete
deriving DecidableEq

/-- True exactly on the successClose constructor of the loop result. -/
def isSuccessClose : ApproachResult → Bool
  | ApproachResult.successClose _ => true
  | _ => false

/-- The approach loop with explicit fuel, starting at cycle index k.
Also returns the list of (step_size, step_duration) forward moves issued. -/
def approachRun (stop_distance : ℚ) (obs : ℕ → ApproachObs) :
    ℕ → ℕ → ApproachResult × List (ℚ × ℚ)
  | _, 0 => (ApproachResult.incomplete, [])
  | k, fuel + 1 =>
    match approachCycle stop_distance (obs k) with
    | ApproachCycleRes.errorPath => (ApproachResult.errorPath, [])
    | ApproachCycleRes.reached d s => (ApproachResult.success d s, [])
    | ApproachCycleRes.veryClose d => (ApproachResult.successClose d, [])
    | ApproachCycleRes.move sz dur _ _ =>
      let p := approachRun stop_distance obs (k + 1) fuel
      (p.1, (sz, dur) :: p.2)

/-- approach_object_slowly, lines 545-614: while step_count < max_steps (20). -/
def approach_object_slowly (stop_distance : ℚ) (obs : ℕ → ApproachObs) :
    ApproachResult × List (ℚ × ℚ) :=
  approachRun stop_distance obs 0 20

/-- A centering instruction as consumed by center_target_until_centered: the
values read from the parsed dictionary with the .get defaults of lines 433-464
already applied (centered false, target_visible false, turn_direction "none",
turn_angle 0, turn_duration 0.5, confidence 5, position "center"). -/
structure CenterInstr where
  target_visible : Bool
  position : String
  turn_direction : String
  turn_angle : ℚ
  turn_duration : ℚ
  centered : Bool
  confidence : ℤ
deriving DecidableEq

/-- The environment of one centering attempt: whether the image-path regex
matched, the outcome of get_centering_instructions_with_retry (none after 5
invalid responses or exceptions, lines 279-342), and the instructions obtained
from the fresh logic-check frame (none also covers a failed fresh path match
or exhausted fresh retries, lines 477-509). -/
structure CenterObs where
  pathOk : Bool
  instr : Option CenterInstr
  fresh : Option CenterInstr

/-- A turn command issued through turn_in_place_left / turn_in_place_right
(always at speed 50 in this loop). -/
inductive TurnCmd
  | left (angle dur : ℚ)
  | right (angle dur : ℚ)
deriving DecidableEq

/-- Result of center_target_until_centered, one constructor per return
statement of lines 391-540. -/
inductive CenterResult
  | pathFail
  | noInstr
  | centered
  | notVisible
  | lowConf
  | noTurnNeeded
  | invalidTurn
  | incomplete
deriving DecidableEq

/-- Outcome of one iteration of the centering loop: either a return statement
fires, or the loop continues (after issuing the recorded turn, if any). -/
inductive StepRes
  | done (r : CenterResult)
  | next (turn : Option TurnCmd)
deriving DecidableEq

/-- The retry pattern of the loop: if attempt < max_attempts - 1 (i.e. 49)
sleep and continue, else return the failure (max_attempts = 50, line 398). -/
def retryOr (attempt : ℕ) (r : CenterResult) : StepRes :=
  if attempt < 49 then StepRes.next none else StepRes.done r

/-- The logic-error trigger of lines 467-474: turn_direction "left" with
positive turn_angle while position is "right", or turn_direction "right" with
positive turn_angle while position is "left". Exactly when this holds, a fresh
frame is captured and fresh instructions are requested (lines 476-509). -/
def logicError0 (i : CenterInstr) : Bool :=
  (i.turn_direction = "left" ∧ 0 < i.turn_angle ∧ i.position = "right") ∨
  (i.turn_direction = "right" ∧ 0 < i.turn_angle ∧ i.position = "left")

/-- The acceptance test for fresh instructions, lines 495-497: position and
direction agree on the same side, or the fresh direction is "none". -/
def freshAgrees (f : CenterInstr) : Bool :=
  (f.position = "right" ∧ f.turn_direction = "right") ∨
  (f.position = "left" ∧ f.turn_direction = "left") ∨
  f.turn_direction = "none"

/-- The direction/angle/duration/position acted upon after the logic-error
handling, together with the final logic_error flag (lines 464-509). -/
structure Acted where
  dir : String
  angle : ℚ
  dur : ℚ
  pos : String
  logicError : Bool
deriving DecidableEq

/-- Lines 476-509: when the logic-error trigger fired, consult the fresh
instructions; replace the acted-upon fields and clear the flag only when the
fresh instructions are available, report the target visible, and pass the
acceptance test; otherwise keep the original fields with the flag set. -/
def resolveLogic (i : CenterInstr) (fresh : Option CenterInstr) : Acted :=
  if logicError0 i then
    match fresh with
    | some f =>
      if f.target_visible then
        if freshAgrees f then
          ⟨f.turn_direction, f.turn_angle, f.turn_duration, f.position, false⟩
        else
          ⟨i.turn_direction, i.turn_angle, i.turn_duration, i.position, true⟩
      else ⟨i.turn_direction, i.turn_angle, i.turn_duration, i.position, true⟩
    | none => ⟨i.turn_direction, i.turn_angle, i.turn_duration, i.position, true⟩
  else ⟨i.turn_direction, i.turn_angle, i.turn_duration, i.position, false⟩

/-- The dispatch of lines 511-534: issue the (possibly inverted) turn, or
return "no turn needed" when the direction is "none" or the angle is 0, or
fall to the invalid-instructions retry. -/
def dispatchTurn (attempt : ℕ) (x : Acted) : StepRes :=
  if x.dir = "left" ∧ 0 < x.angle then
    if x.logicError = true ∧ x.pos = "right" then
      StepRes.next (some (TurnCmd.right x.angle x.dur))
    else StepRes.next (some (TurnCmd.left x.angle x.dur))
  else if x.dir = "right" ∧ 0 < x.angle then
    if x.logicError = true ∧ x.pos = "left" then
      StepRes.next (some (TurnCmd.left x.angle x.dur))
    else StepRes.next (some (TurnCmd.right x.angle x.dur))
  else if x.dir = "none" ∨ x.angle = 0 then StepRes.done CenterResult.noTurnNeeded
  else retryOr attempt CenterResult.invalidTurn

/-- One iteration of the centering loop body, lines 400-538, for the given
1-based attempt number. -/
def centerStep (attempt : ℕ) (obs : CenterObs) : StepRes :=
  if obs.pathOk = false then retryOr attempt CenterResult.pathFail
  else
    match obs.instr with
    | none => retryOr attempt CenterResult.noInstr
    | some i =>
      if i.centered then StepRes.done CenterResult.centered
      else if i.target_visible = false then retryOr attempt CenterResult.notVisible
      else if i.confidence < 5 then retryOr attempt CenterResult.lowConf
      else dispatchTurn attempt (resolveLogic i obs.fresh)

/-- The centering loop with explicit fuel, attempt starting at the given
number. Returns the result, the turns issued, and the number of iterations
actually executed. -/
def centerRun (obs : ℕ → CenterObs) : ℕ → ℕ → CenterResult × List TurnCmd × ℕ
  | _, 0 => (CenterResult.incomplete, [], 0)
  | a, fuel + 1 =>
    match centerStep a (obs a) with
    | StepRes.done r => (r, [], 1)
    | StepRes.next t =>
      let p := centerRun obs (a + 1) fuel
      (p.1, t.toList ++ p.2.1, p.2.2 + 1)

/-- center_target_until_centered, lines 391-543: attempts run from 1 while
attempt < max_attempts with max_attempts = 50; reaching the cap returns the
"centering incomplete (safety limit reached)" result. The surrounding
try-except turns any exception into a returned error string, so the embedded
loop is a total function of the response trace. -/
def center_target_until_centered (obs : ℕ → CenterObs) :
    CenterResult × List TurnCmd × ℕ :=
  centerRun obs 1 50

end Ruthwika

/-- An entry of the execution_log produced by the command sequencers: the
command index plus the success and boundary_hit fields recorded for it (the
command dict and result text carry no further control information). -/
structure LogEntry where
  idx : ℕ
  success : Bool
  boundary_hit : Bool
deriving DecidableEq

/-- The observable outcome of dispatching one command under the safety
monitor: it completed with the boundary flag still clear, it completed with
the boundary flag raised, or it raised an exception to the sequencer (with the
value the shared boundary flag had at that moment). -/
inductive CmdOutcome
  | ok
  | boundary
  | exn (flagAtRaise : Bool)
deriving DecidableEq

namespace SimpleMaze

/-- The per-tick monitoring loop inside execute_command_with_continuous_
monitoring for a forward command (src/Final/simple_maze_agent.py lines
460-478 and the except-handler of lines 517-524). gray t is the grayscale
sample at tick t; fault = some t means the sensor read at tick t raises.
raised records whether the exception was re-raised to the caller after the
defensive px.stop() of the handler; boundary records the shared flag. -/
structure ExecOut where
  raised : Bool
  boundary : Bool
  events : List HwEvent
deriving DecidableEq

/-- The 50ms monitoring loop: on a faulted read the handler issues a
defensive stop and re-raises; on a sample below the black-line threshold 200
the flag is set, the motors stop and the command returns early; otherwise the
loop runs to the end of the duration and stops normally. -/
def smMonitor (gray : ℕ → List ℤ) (fault : Option ℕ) : ℕ → ℕ → ExecOut
  | _, 0 => ⟨false, false, [HwEvent.stopCmd]⟩
  | t, ticks + 1 =>
    if fault = some t then ⟨true, false, [HwEvent.stopCmd]⟩
    else if (gray t).any (fun v => v < 200) then ⟨false, true, [HwEvent.stopCmd]⟩
    else smMonitor gray fault (t + 1) ticks

/-- execute_command_with_continuous_monitoring for action move_forward,
lines 444-478: reset(), px.forward(speed), then the monitoring loop; the
duration is abstracted to its number of 50ms polling ticks. -/
def execute_forward_with_monitoring (speed : ℚ) (gray : ℕ → List ℤ)
    (fault : Option ℕ) (ticks : ℕ) : ExecOut :=
  let m := smMonitor gray fault 0 ticks
  ⟨m.raised, m.boundary, HwEvent.resetCmd :: HwEvent.forwardCmd speed :: m.events⟩

/-- The sequencer loop of execute_commands_with_monitoring, src/Final/
simple_maze_agent.py lines 373-426, at log level: each command is abstracted
to its CmdOutcome. On boundary the entry has success False and boundary_hit
True and the loop breaks; on an exception the entry records the flag at raise
time and the loop breaks; otherwise success True / boundary_hit False. -/
def execute_commands_with_monitoring (i : ℕ) : List CmdOutcome → List LogEntry
  | [] => []
  | o :: rest =>
    match o with
    | CmdOutcome.ok => ⟨i, true, false⟩ :: execute_commands_with_monitoring (i + 1) rest
    | CmdOutcome.boundary => [⟨i, false, true⟩]
    | CmdOutcome.exn flag => [⟨i, false, flag⟩]

end SimpleMaze

namespace MazeNav

/-- The sequencer loop of execute_command_list, src/Final/
maze_navigation_agent.py lines 263-310, at log level. On the non-exception
path the appended entry always carries success True and boundary_hit False
(lines 281-287); the boundary flag is only consulted afterwards to decide
whether to break (lines 289-294). On an exception the entry records success
False with the flag at raise time and the loop breaks. -/
def execute_command_list (i : ℕ) : List CmdOutcome → List LogEntry
  | [] => []
  | o :: rest =>
    match o with
    | CmdOutcome.ok => ⟨i, true, false⟩ :: execute_command_list (i + 1) rest
    | CmdOutcome.boundary => [⟨i, true, false⟩]
    | CmdOutcome.exn flag => [⟨i, false, flag⟩]

/-- The search of get_course_correction, lines 343-354: the first entry of the
reversed execution log whose boundary_hit field is set. -/
def find_boundary_entry (log : List LogEntry) : Option LogEntry :=
  log.reverse.find? (fun e => e.boundary_hit)

end MazeNav

/-- Helper: when both sensor values are absent or out of their valid ranges,
the fusion returns the fixed fallback (10, fallback). -/
theorem fuse_both_invalid (u v : Option ℚ)
    (hu : ∀ x, u = some x → ¬(2 ≤ x ∧ x ≤ 400))
    (hv : ∀ y, v = some y → ¬(2 ≤ y ∧ y ≤ 500)) :
    Ruthwika.fuse u v = (10, Ruthwika.Source.fallback) := by
  cases u with
  | none =>
    cases v with
    | none => rfl
    | some y => simp [Ruthwika.fuse, hv y rfl]
  | some x =>
    cases v with
    | none => simp [Ruthwika.fuse, hu x rfl]
    | some y => simp [Ruthwika.fuse, hu x rfl, hv y rfl]

/-- Helper: an extracted ultrasonic value outside [2,400] (or no value at all)
parses to None. -/
theorem parse_ultrasonic_invalid (raw : Option ℚ)
    (h : ∀ x, raw = some x → ¬(2 ≤ x ∧ x ≤ 400)) :
    Ruthwika.parse_ultrasonic_distance raw = none := by
  cases hr : raw with
  | none => rfl
  | some x => simp [Ruthwika.parse_ultrasonic_distance, h x hr]

/-- C2: distance fusion is a pure function of the (rangefinder, vision) pair
and follows the priority chain of approach_object_slowly lines 576-584: a
present rangefinder value in [2,400] is chosen with source ultrasonic (the
code name for the rangefinder); otherwise a present vision value in [2,500]
is chosen with source vision; otherwise the fixed 10 cm fallback. The last
conjunct shows a rangefinder value is only ever chosen when it is in [2,400],
whatever the vision input. -/
theorem fusion_priority_policy (u v : Option ℚ) :
    (∀ x, u = some x → 2 ≤ x → x ≤ 400 →
      Ruthwika.fuse u v = (x, Ruthwika.Source.ultrasonic)) ∧
    ((∀ x, u = some x → ¬(2 ≤ x ∧ x ≤ 400)) →
      ∀ y, v = some y → 2 ≤ y → y ≤ 500 →
        Ruthwika.fuse u v = (y, Ruthwika.Source.vision)) ∧
    ((∀ x, u = some x → ¬(2 ≤ x ∧ x ≤ 400)) →
      (∀ y, v = some y → ¬(2 ≤ y ∧ y ≤ 500)) →
        Ruthwika.fuse u v = (10, Ruthwika.Source.fallback)) ∧
    (∀ x, Ruthwika.fuse u v = (x, Ruthwika.Source.ultrasonic) →
      u = some x ∧ 2 ≤ x ∧ x ≤ 400) := by
  refine ⟨?_, ?_, ?_, ?_⟩
  · rintro x rfl h1 h2
    simp [Ruthwika.fuse, h1, h2]
  · intro hu y hy h1 h2
    subst hy
    cases u with
    | none => simp [Ruthwika.fuse, h1, h2]
    | some x => simp [Ruthwika.fuse, hu x rfl, h1, h2]
  · exact fuse_both_invalid u v
  · intro x hx
    cases hu : u with
    | none =>
      exfalso
      cases hv : v with
      | none => rw [hu, hv] at hx; cases hx
      | some y =>
        rw [hu, hv] at hx
        by_cases h : 2 ≤ y ∧ y ≤ 500 <;> simp [Ruthwika.fuse, h] at hx
    | some w =>
      by_cases h : 2 ≤ w ∧ w ≤ 400
      · rw [hu] at hx
        simp [Ruthwika.fuse, h] at hx
        subst hx
        exact ⟨rfl, h.1, h.2⟩
      · exfalso
        rw [hu] at hx
        cases hv : v with
        | none => rw [hv] at hx; simp [Ruthwika.fuse, h] at hx
        | some y =>
          rw [hv] at hx
          by_cases h2 : 2 ≤ y ∧ y ≤ 500 <;> simp [Ruthwika.fuse, h, h2] at hx

/-- Witness for fusion_priority_policy at concrete inputs: a valid rangefinder
value wins, an invalid rangefinder with valid vision yields the vision value,
both invalid yields the fallback, and the inversion holds at (some 50, none). -/
theorem fusion_priority_policy_witness :
    Ruthwika.fuse (some 50) (some 42) = (50, Ruthwika.Source.ultrasonic) ∧
    Ruthwika.fuse (some 500) (some 42) = (42, Ruthwika.Source.vision) ∧
    Ruthwika.fuse (some 500) (some 600) = (10, Ruthwika.Source.fallback) ∧
    ((some 50 : Option ℚ) = some 50 ∧ 2 ≤ (50 : ℚ) ∧ (50 : ℚ) ≤ 400) :=
  ⟨(fusion_priority_policy (some 50) (some 42)).1 50 rfl (by norm_num) (by norm_num),
   (fusion_priority_policy (some 500) (some 42)).2.1
     (fun x hx => by cases hx; norm_num) 42 rfl (by norm_num) (by norm_num),
   (fusion_priority_policy (some 500) (some 600)).2.2.1
     (fun x hx => by cases hx; norm_num) (fun y hy => by cases hy; norm_num),
   (fusion_priority_policy (some 50) none).2.2.2 50 (by decide)⟩

/-- Helper: on a cycle whose sensors are both invalid the fused pair is the
fallback, so the cycle either reports success at 10 cm or moves forward. -/
theorem approachCycle_fallback (stop_distance : ℚ) (o : Ruthwika.ApproachObs)
    (hpath : o.pathOk = true)
    (hu : ∀ x, o.ultraRaw = some x → ¬(2 ≤ x ∧ x ≤ 400))
    (hv : ∀ y, o.visionD = some y → ¬(2 ≤ y ∧ y ≤ 500)) :
    Ruthwika.approachCycle stop_distance o =
      (if (10 : ℚ) ≤ stop_distance then
        Ruthwika.ApproachCycleRes.reached 10 Ruthwika.Source.fallback
      else
        Ruthwika.ApproachCycleRes.move (Ruthwika.stepSize (10 - stop_distance))
          (Ruthwika.stepDuration (Ruthwika.stepSize (10 - stop_distance))) 10
          Ruthwika.Source.fallback) := by
  have hparse : Ruthwika.parse_ultrasonic_distance o.ultraRaw = none :=
    parse_ultrasonic_invalid o.ultraRaw hu
  have hfuse : Ruthwika.fuse (Ruthwika.parse_ultrasonic_distance o.ultraRaw) o.visionD =
      (10, Ruthwika.Source.fallback) := by
    rw [hparse]
    exact fuse_both_invalid none o.visionD (fun x hx => by cases hx) hv
  unfold Ruthwika.approachCycle
  rw [hpath]
  simp only [hfuse]
  by_cases hs : (10 : ℚ) ≤ stop_distance
  · simp [hs]
  · have h1 : ¬ Ruthwika.stepSize (10 - stop_distance) < 1 :=
      not_lt.mpr (le_max_left 1 _)
    simp [hs, h1]

/-- C9: with stop_distance at least 10 cm, a cycle on which both the
ultrasonic reading and the vision estimate are invalid fuses to the 10 cm
fallback, which already satisfies the stop condition, so the cycle reports
reached and the whole approach returns success at 10 cm with source fallback
and no forward move issued, without any valid sensor measurement. -/
theorem approach_fallback_immediate_success (stop_distance : ℚ)
    (obs : ℕ → Ruthwika.ApproachObs)
    (hstop : 10 ≤ stop_distance)
    (hpath : (obs 0).pathOk = true)
    (hu : ∀ x, (obs 0).ultraRaw = some x → ¬(2 ≤ x ∧ x ≤ 400))
    (hv : ∀ y, (obs 0).visionD = some y → ¬(2 ≤ y ∧ y ≤ 500)) :
    Ruthwika.approachCycle stop_distance (obs 0) =
      Ruthwika.ApproachCycleRes.reached 10 Ruthwika.Source.fallback ∧
    Ruthwika.approach_object_slowly stop_distance obs =
      (Ruthwika.ApproachResult.success 10 Ruthwika.Source.fallback, []) := by
  have hcycle : Ruthwika.approachCycle stop_distance (obs 0) =
      Ruthwika.ApproachCycleRes.reached 10 Ruthwika.Source.fallback := by
    rw [approachCycle_fallback stop_distance (obs 0) hpath hu hv, if_pos hstop]
  refine ⟨hcycle, ?_⟩
  show Ruthwika.approachRun stop_distance obs 0 20 = _
  rw [show (20 : ℕ) = 19 + 1 from rfl, Ruthwika.approachRun, hcycle]

/-- Witness for approach_fallback_immediate_success with stop distance 12 and
an environment whose sensors never return anything. -/
theorem approach_fallback_immediate_success_witness :
    (10 : ℚ) ≤ 12 ∧
    Ruthwika.approach_object_slowly 12
      (fun _ => { pathOk := true, ultraRaw := none, visionD := none }) =
      (Ruthwika.ApproachResult.success 10 Ruthwika.Source.fallback, []) :=
  ⟨by norm_num,
   (approach_fallback_immediate_success 12
      (fun _ => { pathOk := true, ultraRaw := none, visionD := none })
      (by norm_num) rfl (fun x hx => by cases hx) (fun y hy => by cases hy)).2⟩

/-- C10: the computed step size max(1.0, min(8.0, remaining * 0.3)) is at
least 1 for every remaining distance, so the step_size < 1.0 convergence
branch of approach_object_slowly (lines 598-600) is unreachable: no cycle and
no full run ever produces the very-close success. -/
theorem step_size_floor_branch_unreachable :
    (∀ remaining : ℚ, 1 ≤ Ruthwika.stepSize remaining) ∧
    (∀ (stop_distance : ℚ) (o : Ruthwika.ApproachObs),
      Ruthwika.isVeryClose (Ruthwika.approachCycle stop_distance o) = false) ∧
    (∀ (stop_distance : ℚ) (obs : ℕ → Ruthwika.ApproachObs) (k fuel : ℕ),
      Ruthwika.isSuccessClose (Ruthwika.approachRun stop_distance obs k fuel).1 = false) := by
  have h1 : ∀ remaining : ℚ, 1 ≤ Ruthwika.stepSize remaining :=
    fun r => le_max_left 1 _
  have h2 : ∀ (stop_distance : ℚ) (o : Ruthwika.ApproachObs),
      Ruthwika.isVeryClose (Ruthwika.approachCycle stop_distance o) = false := by
    intro stop_distance o
    unfold Ruthwika.approachCycle
    split
    · rfl
    · dsimp only
      split
      · rfl
      · rw [if_neg (not_lt.mpr (h1 _))]
        rfl
  refine ⟨h1, h2, ?_⟩
  intro stop_distance obs k fuel
  induction fuel generalizing k with
  | zero => rfl
  | succ n ih =>
    rw [Ruthwika.approachRun]
    cases hc : Ruthwika.approachCycle stop_distance (obs k) with
    | errorPath => rfl
    | reached d s => rfl
    | veryClose d =>
      have := h2 stop_distance (obs k)
      rw [hc] at this
      cases this
    | move sz dur d s => exact ih (k + 1)

/-- Helper: on the all-invalid environment with stop distance 5, the cycle
always issues a 1.5 cm move over 0.1 s. -/
theorem approachCycle_all_fallback_five :
    Ruthwika.approachCycle 5 { pathOk := true, ultraRaw := none, visionD := none } =
      Ruthwika.ApproachCycleRes.move (3/2) (1/10) 10 Ruthwika.Source.fallback := by
  have h := approachCycle_fallback 5 { pathOk := true, ultraRaw := none, visionD := none }
    rfl (fun x hx => by cases hx) (fun y hy => by cases hy)
  rw [h, if_neg (by norm_num)]
  norm_num [Ruthwika.stepSize, Ruthwika.stepDuration]

/-- Helper: the approach loop on the all-invalid environment with stop
distance 5 runs out of fuel, issuing one forward move per cycle. -/
theorem approachRun_all_fallback (k fuel : ℕ) :
    Ruthwika.approachRun 5
      (fun _ => { pathOk := true, ultraRaw := none, visionD := none }) k fuel =
      (Ruthwika.ApproachResult.incomplete,
        List.replicate fuel ((3 : ℚ)/2, (1 : ℚ)/10)) := by
  induction fuel generalizing k with
  | zero => rfl
  | succ n ih =>
    rw [Ruthwika.approachRun, approachCycle_all_fallback_five]
    dsimp only
    rw [ih (k + 1)]
    rfl

/-- C3 counterexample: with stop distance 5 cm and an environment on which
every cycle is a fallback cycle (no sensor ever valid), the controller issues
a forward move on all 20 consecutive fallback cycles and ends with the
safety-limit incomplete result. It never aborts forward motion after several
consecutive fallback cycles and never returns an unverified
visual-estimate-only result, contradicting the claimed safety valve. -/
theorem no_unreliable_sensor_counter_cex :
    Ruthwika.fuse none none = (10, Ruthwika.Source.fallback) ∧
    Ruthwika.approach_object_slowly 5
      (fun _ => { pathOk := true, ultraRaw := none, visionD := none }) =
      (Ruthwika.ApproachResult.incomplete,
        List.replicate 20 ((3 : ℚ)/2, (1 : ℚ)/10)) :=
  ⟨rfl, approachRun_all_fallback 0 20⟩

/-- C3 amended: the approach controller keeps no unreliable-sensor counter.
A cycle on which both sensors are invalid uses the fixed 10 cm fallback like
an ordinary reading: when stop_distance is at least 10 it returns immediate
success, and otherwise it issues another forward drive command on that very
cycle, regardless of how many consecutive fallback cycles preceded it; only
the 20-step cap ends an all-fallback run, with the incomplete result. -/
theorem fallback_cycle_keeps_moving (stop_distance : ℚ)
    (o : Ruthwika.ApproachObs)
    (hpath : o.pathOk = true)
    (hu : ∀ x, o.ultraRaw = some x → ¬(2 ≤ x ∧ x ≤ 400))
    (hv : ∀ y, o.visionD = some y → ¬(2 ≤ y ∧ y ≤ 500)) :
    (10 ≤ stop_distance → Ruthwika.approachCycle stop_distance o =
      Ruthwika.ApproachCycleRes.reached 10 Ruthwika.Source.fallback) ∧
    (stop_distance < 10 → Ruthwika.approachCycle stop_distance o =
      Ruthwika.ApproachCycleRes.move (Ruthwika.stepSize (10 - stop_distance))
        (Ruthwika.stepDuration (Ruthwika.stepSize (10 - stop_distance))) 10
        Ruthwika.Source.fallback) := by
  have h := approachCycle_fallback stop_distance o hpath hu hv
  constructor
  · intro hs
    rw [h, if_pos hs]
  · intro hs
    rw [h, if_neg (not_le.mpr hs)]

/-- Witness for fallback_cycle_keeps_moving: with stop distance 5 and no
valid sensors the cycle issues a forward move of 1.5 cm over 0.1 s. -/
theorem fallback_cycle_keeps_moving_witness :
    (5 : ℚ) < 10 ∧
    Ruthwika.approachCycle 5 { pathOk := true, ultraRaw := none, visionD := none } =
      Ruthwika.ApproachCycleRes.move (3/2) (1/10) 10 Ruthwika.Source.fallback := by
  refine ⟨by norm_num, ?_⟩
  have h := (fallback_cycle_keeps_moving 5
    { pathOk := true, ultraRaw := none, visionD := none }
    rfl (fun x hx => by cases hx) (fun y hy => by cases hy)).2 (by norm_num)
  rw [h]
  norm_num [Ruthwika.stepSize, Ruthwika.stepDuration]

/-- Helper: when the logic-error trigger fired and the fresh instructions are
unavailable, report the target invisible, or fail the acceptance test, the
original instruction fields are acted upon with the logic_error flag set. -/
theorem resolveLogic_still (i : Ruthwika.CenterInstr)
    (fresh : Option Ruthwika.CenterInstr)
    (hflag : Ruthwika.logicError0 i = true)
    (hfresh : ∀ f, fresh = some f → f.target_visible = true →
      Ruthwika.freshAgrees f = false) :
    Ruthwika.resolveLogic i fresh =
      ⟨i.turn_direction, i.turn_angle, i.turn_duration, i.position, true⟩ := by
  simp only [Ruthwika.resolveLogic, hflag, if_true]
  cases fresh with
  | none => rfl
  | some f =>
    cases hv : f.target_visible with
    | false => simp [hv]
    | true => simp [hv, hfresh f rfl hv]

/-- Helper: no single centering iteration returns the incomplete result; that
result is produced only by exhausting the attempt cap. -/
theorem centerStep_no_incomplete (a : ℕ) (o : Ruthwika.CenterObs) :
    Ruthwika.centerStep a o ≠ Ruthwika.StepRes.done Ruthwika.CenterResult.incomplete := by
  have hnext : ∀ t, Ruthwika.StepRes.next t ≠
      Ruthwika.StepRes.done Ruthwika.CenterResult.incomplete :=
    fun t h => Ruthwika.StepRes.noConfusion h
  have hr : ∀ r, r ≠ Ruthwika.CenterResult.incomplete →
      Ruthwika.retryOr a r ≠ Ruthwika.StepRes.done Ruthwika.CenterResult.incomplete := by
    intro r hrn
    unfold Ruthwika.retryOr
    split
    · exact hnext none
    · intro h
      injection h with h2
      exact hrn h2
  unfold Ruthwika.centerStep Ruthwika.dispatchTurn
  split
  · exact hr _ (by decide)
  · split
    · exact hr _ (by decide)
    · split
      · intro h
        injection h with h2
        exact Ruthwika.CenterResult.noConfusion h2
      · split
        · exact hr _ (by decide)
        · split
          · exact hr _ (by decide)
          · split
            · split
              · exact hnext _
              · exact hnext _
            · split
              · split
                · exact hnext _
                · exact hnext _
              · split
                · intro h
                  injection h with h2
                  exact Ruthwika.CenterResult.noConfusion h2
                · exact hr _ (by decide)

/-- C5: for every deterministic trace of parsed vision responses, including
malformed ones (instr none), invisible targets, low confidence and constantly
logic-inconsistent instructions, the centering loop executes at most fuel
iterations (50 from the top-level entry) and returns an explicit result; the
incomplete result occurs only when the full attempt cap was consumed. The
loop is a total function of the trace, so it never diverges, and every
exception path of the source returns a string, modelled by the explicit
result constructors. -/
theorem centering_terminates_within_cap :
    (∀ (obs : ℕ → Ruthwika.CenterObs) (a fuel : ℕ),
      (Ruthwika.centerRun obs a fuel).2.2 ≤ fuel ∧
      ((Ruthwika.centerRun obs a fuel).1 = Ruthwika.CenterResult.incomplete →
        (Ruthwika.centerRun obs a fuel).2.2 = fuel)) ∧
    (∀ obs : ℕ → Ruthwika.CenterObs,
      (Ruthwika.center_target_until_centered obs).2.2 ≤ 50) := by
  have main : ∀ (fuel : ℕ) (obs : ℕ → Ruthwika.CenterObs) (a : ℕ),
      (Ruthwika.centerRun obs a fuel).2.2 ≤ fuel ∧
      ((Ruthwika.centerRun obs a fuel).1 = Ruthwika.CenterResult.incomplete →
        (Ruthwika.centerRun obs a fuel).2.2 = fuel) := by
    intro fuel
    induction fuel with
    | zero => exact fun obs a => ⟨le_refl 0, fun _ => rfl⟩
    | succ n ih =>
      intro obs a
      rw [Ruthwika.centerRun]
      cases hs : Ruthwika.centerStep a (obs a) with
      | done r =>
        dsimp only
        refine ⟨Nat.succ_le_succ (Nat.zero_le n), ?_⟩
        intro hres
        exact absurd (hres ▸ hs) (centerStep_no_incomplete a (obs a))
      | next t =>
        dsimp only
        obtain ⟨ih1, ih2⟩ := ih obs (a + 1)
        refine ⟨Nat.succ_le_succ ih1, ?_⟩
        intro hres
        rw [ih2 hres]
  exact ⟨fun obs a fuel => main fuel obs a, fun obs => (main 50 obs 1).1⟩

/-- Witness for centering_terminates_within_cap: the constantly
logic-inconsistent mock consumes all 50 attempts and ends incomplete. -/
theorem centering_terminates_within_cap_witness :
    (Ruthwika.centerRun
      (fun _ => (⟨true, some ⟨true, "right", "left", 5, 1/2, false, 8⟩,
        some ⟨true, "right", "left", 5, 1/2, false, 8⟩⟩ : Ruthwika.CenterObs)) 1 50).1 =
      Ruthwika.CenterResult.incomplete ∧
    (Ruthwika.centerRun
      (fun _ => (⟨true, some ⟨true, "right", "left", 5, 1/2, false, 8⟩,
        some ⟨true, "right", "left", 5, 1/2, false, 8⟩⟩ : Ruthwika.CenterObs)) 1 50).2.2 = 50 :=
  ⟨by decide,
   (centering_terminates_within_cap.1
      (fun _ => (⟨true, some ⟨true, "right", "left", 5, 1/2, false, 8⟩,
        some ⟨true, "right", "left", 5, 1/2, false, 8⟩⟩ : Ruthwika.CenterObs)) 1 50).2
     (by decide)⟩

/-- C6 counterexample: with position right, turn_direction left but
turn_angle 0, the instruction is contradictory in the claimed sense, yet the
logic-error trigger does not fire (it requires a positive turn_angle), no
fresh frame is requested, and the loop returns the no-turn-needed success on
the spot instead of inverting anything: the whole run ends after one
iteration with no turn issued. -/
theorem logic_inconsistency_cex :
    Ruthwika.logicError0 ⟨true, "right", "left", 0, 1/2, false, 8⟩ = false ∧
    Ruthwika.centerStep 1
      (⟨true, some ⟨true, "right", "left", 0, 1/2, false, 8⟩, none⟩ : Ruthwika.CenterObs) =
      Ruthwika.StepRes.done Ruthwika.CenterResult.noTurnNeeded ∧
    Ruthwika.center_target_until_centered
      (fun _ => (⟨true, some ⟨true, "right", "left", 0, 1/2, false, 8⟩,
        none⟩ : Ruthwika.CenterObs)) =
      (Ruthwika.CenterResult.noTurnNeeded, [], 1) := by
  exact ⟨by decide, by decide, by decide⟩

/-- C6 amended: whenever the instruction has a positive turn_angle and its
turn_direction contradicts its position (position right with direction left,
or position left with direction right), the logic-error trigger fires, so a
fresh frame is captured and instructions re-requested; and whenever the fresh
instructions are unavailable, report the target invisible, or still fail the
agreement test, the turn actually issued inverts the instructed direction to
match the position field, keeping the original angle and duration. -/
theorem logic_inconsistency_corrected (a : ℕ) (obs : Ruthwika.CenterObs)
    (i : Ruthwika.CenterInstr)
    (hpath : obs.pathOk = true) (hinstr : obs.instr = some i)
    (hcent : i.centered = false) (hvis : i.target_visible = true)
    (hconf : 5 ≤ i.confidence) (hang : 0 < i.turn_angle)
    (hfresh : ∀ f, obs.fresh = some f → f.target_visible = true →
      Ruthwika.freshAgrees f = false) :
    (i.position = "right" → i.turn_direction = "left" →
      Ruthwika.logicError0 i = true ∧
      Ruthwika.centerStep a obs = Ruthwika.StepRes.next
        (some (Ruthwika.TurnCmd.right i.turn_angle i.turn_duration))) ∧
    (i.position = "left" → i.turn_direction = "right" →
      Ruthwika.logicError0 i = true ∧
      Ruthwika.centerStep a obs = Ruthwika.StepRes.next
        (some (Ruthwika.TurnCmd.left i.turn_angle i.turn_duration))) := by
  have hstep : Ruthwika.centerStep a obs =
      Ruthwika.dispatchTurn a (Ruthwika.resolveLogic i obs.fresh) := by
    unfold Ruthwika.centerStep
    simp [hpath, hinstr, hcent, hvis, not_lt.mpr hconf]
  constructor
  · intro hpos hdir
    have hflag : Ruthwika.logicError0 i = true := by
      simp [Ruthwika.logicError0, hpos, hdir, hang]
    refine ⟨hflag, ?_⟩
    rw [hstep, resolveLogic_still i obs.fresh hflag hfresh]
    unfold Ruthwika.dispatchTurn
    simp [hpos, hdir, hang]
  · intro hpos hdir
    have hflag : Ruthwika.logicError0 i = true := by
      simp [Ruthwika.logicError0, hpos, hdir, hang]
    refine ⟨hflag, ?_⟩
    rw [hstep, resolveLogic_still i obs.fresh hflag hfresh]
    unfold Ruthwika.dispatchTurn
    simp [hpos, hdir, hang]

/-- Witness for logic_inconsistency_corrected: a concrete contradictory
instruction (position right, direction left, angle 5) whose fresh
re-request still disagrees (position center, direction left) issues a right
turn of 5 degrees for 0.5 seconds. -/
theorem logic_inconsistency_corrected_witness :
    Ruthwika.centerStep 1
      (⟨true, some ⟨true, "right", "left", 5, 1/2, false, 8⟩,
        some ⟨true, "center", "left", 3, 1/2, false, 7⟩⟩ : Ruthwika.CenterObs) =
      Ruthwika.StepRes.next (some (Ruthwika.TurnCmd.right 5 (1/2))) :=
  ((logic_inconsistency_corrected 1
    (⟨true, some ⟨true, "right", "left", 5, 1/2, false, 8⟩,
      some ⟨true, "center", "left", 3, 1/2, false, 7⟩⟩ : Ruthwika.CenterObs)
    ⟨true, "right", "left", 5, 1/2, false, 8⟩
    rfl rfl rfl rfl (by norm_num) (by norm_num)
    (fun f hf _ => by cases hf; decide)).1 rfl rfl).2

/-- C4 counterexample: the camera setters of src/Final/final_primitives.py do
not clamp; an input of 100 degrees leaves the stored cam_pan at 100, outside
[-35, 35], and an input of -100 leaves cam_tilt at -100. -/
theorem servo_clamping_cex :
    (FinalPrims.set_cam_pan_servo ⟨0, 0, 0⟩ 100).cam_pan = 100 ∧
    35 < (FinalPrims.set_cam_pan_servo ⟨0, 0, 0⟩ 100).cam_pan ∧
    (FinalPrims.set_cam_tilt_servo ⟨0, 0, 0⟩ (-100)).cam_tilt = -100 ∧
    (FinalPrims.set_cam_tilt_servo ⟨0, 0, 0⟩ (-100)).cam_tilt < -35 := by
  refine ⟨rfl, by norm_num [FinalPrims.set_cam_pan_servo], rfl,
    by norm_num [FinalPrims.set_cam_tilt_servo]⟩

/-- C4 amended: in src/ruthwika/primitives.py all three angle setters clamp
silently, so the stored angles are always within [-30,30] (steering) and
[-35,35] (camera); in src/Final/final_primitives.py only the steering setter
clamps to [-30,30], while the camera pan and tilt setters store the input
angle unchanged, so out-of-range camera inputs leave the stored state out of
range. -/
theorem servo_clamping_amended :
    (∀ (s : Ruthwika.ServoAngles) (a : ℚ),
      -30 ≤ (Ruthwika.set_dir_servo_angle s a).dir_servo ∧
      (Ruthwika.set_dir_servo_angle s a).dir_servo ≤ 30 ∧
      -35 ≤ (Ruthwika.set_cam_pan_angle s a).cam_pan ∧
      (Ruthwika.set_cam_pan_angle s a).cam_pan ≤ 35 ∧
      -35 ≤ (Ruthwika.set_cam_tilt_angle s a).cam_tilt ∧
      (Ruthwika.set_cam_tilt_angle s a).cam_tilt ≤ 35) ∧
    (∀ (s : FinalPrims.ServoAngles) (a : ℚ),
      -30 ≤ (FinalPrims.set_dir_servo s a).dir_servo ∧
      (FinalPrims.set_dir_servo s a).dir_servo ≤ 30 ∧
      (FinalPrims.set_cam_pan_servo s a).cam_pan = a ∧
      (FinalPrims.set_cam_tilt_servo s a).cam_tilt = a) := by
  constructor
  · intro s a
    refine ⟨le_max_left _ _, max_le (by norm_num) (min_le_left _ _),
      le_max_left _ _, max_le (by norm_num) (min_le_left _ _),
      le_max_left _ _, max_le (by norm_num) (min_le_left _ _)⟩
  · intro s a
    refine ⟨?_, ?_, rfl, rfl⟩ <;>
      · unfold FinalPrims.set_dir_servo
        dsimp only
        split_ifs <;> linarith

/-- C7: rotate_in_place(90, 50) with no duration parameter derives the sleep
duration abs(degrees)/90 * (30/speed) * 1 = 3/5 of a second, which is
strictly positive, commands the two wheel motors with opposite-signed speeds
(+50 and -50), and pins the steering servo to +30 as its first command; in
general the first command pins steering to +30 for positive degrees and -30
otherwise, and the two motor commands always carry opposite-signed speeds. -/
theorem rotate_in_place_spec :
    PicarxPrims.rotate_in_place 90 50 =
      ⟨[HwEvent.setDir 30, HwEvent.motor 1 50, HwEvent.motor 2 (-50),
        HwEvent.sleep (3/5), HwEvent.stopCmd, HwEvent.setDir 0], 3/5, true⟩ ∧
    0 < (PicarxPrims.rotate_in_place 90 50).duration ∧
    (∀ degrees speed : ℚ, (PicarxPrims.rotate_in_place degrees speed).duration =
      |degrees| / 90 * (30 / speed) * 1) ∧
    (∀ degrees speed : ℚ,
      (PicarxPrims.rotate_in_place degrees speed).events.head? =
        some (HwEvent.setDir (if 0 < degrees then 30 else -30))) ∧
    (∀ degrees speed : ℚ,
      (PicarxPrims.rotate_in_place degrees speed).events[1]? =
        some (HwEvent.motor 1 (if 0 < degrees then speed else -speed)) ∧
      (PicarxPrims.rotate_in_place degrees speed).events[2]? =
        some (HwEvent.motor 2 (if 0 < degrees then -speed else speed))) := by
  refine ⟨?_, ?_, ?_, ?_, ?_⟩
  · unfold PicarxPrims.rotate_in_place
    norm_num
  · unfold PicarxPrims.rotate_in_place
    norm_num
  · intro degrees speed
    unfold PicarxPrims.rotate_in_place
    dsimp only
    split <;> ring
  · intro degrees speed
    unfold PicarxPrims.rotate_in_place
    dsimp only
    split <;> rename_i h <;> simp [h]
  · intro degrees speed
    unfold PicarxPrims.rotate_in_place
    dsimp only
    split <;> rename_i h <;> simp [h]

/-- C8 counterexample: in src/ruthwika/primitives.py, when the px.forward
hardware call inside move_forward raises, the except-handler swallows the
exception and returns the error string normally: no defensive stop command is
issued and no error propagates to the caller; the same happens when a later
call raises mid-movement. -/
theorem hardware_error_swallowed_cex :
    Ruthwika.move_forward 30 (some 1) false Ruthwika.MoveFault.onForward none =
      (Ruthwika.MoveResult.failed, []) ∧
    (Ruthwika.move_forward 30 (some 1) false Ruthwika.MoveFault.late none).1 =
      Ruthwika.MoveResult.failed ∧
    (Ruthwika.move_forward 30 (some 1) false
      Ruthwika.MoveFault.late none).2.contains HwEvent.stopCmd = false := by
  exact ⟨by decide, by decide, by decide⟩

/-- C8 amended: the handling of a hardware exception differs per module. The
ruthwika movement primitives swallow the exception and return an error-string
result with no defensive stop (no stop command appears after the fault);
picarx rotate_in_place does issue a defensive stop and steering reset but
returns False instead of propagating an error; the simple_maze_agent command
executor issues a defensive stop and re-raises the exception to its caller.
None of them raises a typed hardware error. -/
theorem hardware_error_handling_amended :
    (∀ (sp : ℤ) (d : ℚ),
      Ruthwika.move_forward sp (some d) false Ruthwika.MoveFault.onForward none =
        (Ruthwika.MoveResult.failed, []) ∧
      Ruthwika.move_forward sp (some d) false Ruthwika.MoveFault.late none =
        (Ruthwika.MoveResult.failed,
          [HwEvent.forwardCmd ((max 0 (min 100 sp) : ℤ) : ℚ)])) ∧
    (∀ degrees speed : ℚ,
      (PicarxPrims.rotate_in_place_faulted degrees speed).result = false ∧
      (PicarxPrims.rotate_in_place_faulted degrees speed).events.contains
        HwEvent.stopCmd = true) ∧
    (∀ (speed : ℚ) (gray : ℕ → List ℤ) (ticks : ℕ),
      SimpleMaze.execute_forward_with_monitoring speed gray (some 0) (ticks + 1) =
        ⟨true, false, [HwEvent.resetCmd, HwEvent.forwardCmd speed, HwEvent.stopCmd]⟩) := by
  refine ⟨?_, ?_, ?_⟩
  · intro sp d
    constructor
    · simp [Ruthwika.move_forward]
    · simp [Ruthwika.move_forward]
  · intro degrees speed
    unfold PicarxPrims.rotate_in_place_faulted
    dsimp only
    constructor
    · split <;> rfl
    · split <;> rfl
  · intro speed gray ticks
    unfold SimpleMaze.execute_forward_with_monitoring SimpleMaze.smMonitor
    simp

/-- C1: evaluation of both sequencers on a two-command list whose first
command trips the safety monitor. In maze_navigation_agent the appended entry
carries success True and boundary_hit False, so its own course-correction
search finds no boundary entry, although nothing after the tripped command is
dispatched; in simple_maze_agent the entry carries success False and
boundary_hit True as the claim states. -/
theorem sequencer_boundary_logging :
    MazeNav.execute_command_list 0 [CmdOutcome.boundary, CmdOutcome.ok] =
      [⟨0, true, false⟩] ∧
    MazeNav.find_boundary_entry
      (MazeNav.execute_command_list 0 [CmdOutcome.boundary, CmdOutcome.ok]) = none ∧
    SimpleMaze.execute_commands_with_monitoring 0
      [CmdOutcome.boundary, CmdOutcome.ok] = [⟨0, false, true⟩] := by
  exact ⟨by decide, by decide, by decide⟩
